import Mathlib

/-!
Verification of the swaram backend's windowing, debounce and message-handling
logic against its specification.

The sources embedded here are `swaram_backend/websocket_server.py`
(`DetectionProcessor`, `WebSocketServer`) and `swaram_backend/model_server.py`
(`RealTimeProcessor`).  Opaque external collaborators (MediaPipe detection,
the TensorFlow classifiers, base64/JPEG decoding, text-to-speech) are taken
as function parameters; timestamps (Python floats from `time.time()`) are
modelled as rationals, since the code only compares and subtracts them.
-/

namespace Swaram

variable {α F L P : Type}

/-- Push onto a Python `collections.deque` with `maxlen`: the element is
appended and, if the deque already held `maxlen` entries, the oldest entry is
evicted from the left.  Written uniformly as appending then dropping the
overflow from the front. -/
def dequePush (maxlen : Nat) (buf : List α) (x : α) : List α :=
  (buf ++ [x]).drop (buf.length + 1 - maxlen)

/-- Buffer horizon `W`: `deque(maxlen=30)` in `DetectionProcessor.__init__`
(`sign_frame_buffer`, `lip_frame_buffer`) and `FRAME_BUFFER_SIZE = 30` in
`model_server.py`. -/
def FRAME_BUFFER_SIZE : Nat := 30

/-- Folding `dequePush` from the empty deque over any sequence of pushes
leaves exactly the trailing `W` elements, in arrival order. -/
theorem foldl_dequePush (W : Nat) (xs : List α) :
    List.foldl (dequePush W) [] xs = xs.drop (xs.length - W) := by
  induction xs using List.reverseRecOn with
  | nil => simp
  | append_singleton ys y ih =>
      rw [List.foldl_append, List.foldl_cons, List.foldl_nil, ih, dequePush,
        List.length_drop]
      rw [← List.drop_append_of_le_length (by omega)]
      rw [List.drop_drop]
      congr 1
      simp only [List.length_append, List.length_cons, List.length_nil]
      omega

/-- C1: for every sequence of pushes into a sliding window deque
(`sign_frame_buffer` / `lip_frame_buffer` / `frame_buffer`, all
`deque(maxlen=30)`), the length never exceeds `W = 30`, and after at least
`W` pushes the deque holds exactly the last `W` pushed elements in arrival
order, the oldest having been evicted first. -/
theorem sliding_window_bounded_and_suffix (xs : List α) :
    (List.foldl (dequePush FRAME_BUFFER_SIZE) [] xs).length ≤ FRAME_BUFFER_SIZE ∧
      (FRAME_BUFFER_SIZE ≤ xs.length →
        List.foldl (dequePush FRAME_BUFFER_SIZE) [] xs =
          xs.drop (xs.length - FRAME_BUFFER_SIZE) ∧
        (List.foldl (dequePush FRAME_BUFFER_SIZE) [] xs).length = FRAME_BUFFER_SIZE) := by
  refine ⟨?_, fun h => ⟨foldl_dequePush _ xs, ?_⟩⟩
  · rw [foldl_dequePush, List.length_drop]; omega
  · rw [foldl_dequePush, List.length_drop]; omega

/-- Witness for C1 at a concrete sequence of 31 pushes. -/
theorem sliding_window_bounded_and_suffix_witness :
    (List.foldl (dequePush FRAME_BUFFER_SIZE) [] (List.range 31)).length ≤ FRAME_BUFFER_SIZE ∧
      List.foldl (dequePush FRAME_BUFFER_SIZE) [] (List.range 31) = (List.range 31).drop 1 :=
  ⟨(sliding_window_bounded_and_suffix (List.range 31)).1,
    ((sliding_window_bounded_and_suffix (List.range 31)).2 (by decide)).1⟩

/-- Processing mode, the validated `mode` field of a frame message. -/
inductive Mode where
  | sign
  | lip
  | both
deriving DecidableEq

/-- Which classifier produced a prediction (`'type'` field of the result). -/
inductive PredSource where
  | sign
  | lip
deriving DecidableEq

/-- Fields of `extract_detection_data`'s result that drive the buffering and
prediction logic.  `L` is the opaque type of the extracted lip-landmark list. -/
structure Detection (L : Type) where
  handCount : Nat
  lipDetected : Bool
  lipLandmarks : L
deriving DecidableEq

/-- Mutable state of a `DetectionProcessor` relevant to buffering and
prediction: `sign_frame_buffer`, `lip_frame_buffer` (both `deque(maxlen=30)`)
and `last_prediction_time`.  `F` is the opaque frame type. -/
structure DetState (F L : Type) where
  signBuffer : List F
  lipBuffer : List L
  lastPredictionTime : ℚ
deriving DecidableEq

/-- Construction-time state of a `DetectionProcessor`: empty deques and
`last_prediction_time = 0` (`DetectionProcessor.__init__`, lines 42-44). -/
def initialDetState : DetState F L := ⟨[], [], 0⟩

/-- Value of `self.prediction_interval` (1.0 second). -/
def predictionInterval : ℚ := 1

/-- Embedding of `DetectionProcessor.process_frame_and_predict` (lines
475-505).  The MediaPipe extraction result is passed in as `det`; the opaque
classifiers are the parameters `predictSign` (`predict_sign_language`) and
`predictLip` (`predict_lip_reading`), which in the source always return a
non-empty dict, so the code's `if prediction:` truthiness test always
succeeds after a call.  Returns the new state and the prediction (if any)
tagged with which branch produced it. -/
def processFrameAndPredict (predictSign : List F → P) (predictLip : List L → P)
    (mode : Mode) (st : DetState F L) (frame : F) (det : Detection L)
    (currentTime : ℚ) : DetState F L × Option (PredSource × P) :=
  let s1 :=
    if (mode = Mode.sign ∨ mode = Mode.both) ∧ 0 < det.handCount then
      let buf := dequePush 30 st.signBuffer frame
      if 10 ≤ buf.length ∧ predictionInterval ≤ currentTime - st.lastPredictionTime then
        (buf, some (PredSource.sign, predictSign buf), currentTime)
      else (buf, none, st.lastPredictionTime)
    else (st.signBuffer, none, st.lastPredictionTime)
  let s2 :=
    if (mode = Mode.lip ∨ mode = Mode.both) ∧ det.lipDetected then
      let buf := dequePush 30 st.lipBuffer det.lipLandmarks
      if 10 ≤ buf.length ∧ predictionInterval ≤ currentTime - s1.2.2 then
        (buf, some (PredSource.lip, predictLip buf), currentTime)
      else (buf, s1.2.1, s1.2.2)
    else (st.lipBuffer, s1.2.1, s1.2.2)
  (⟨s1.1, s2.1, s2.2.2⟩, s2.2.1)

/-- Capacity of `RealTimeProcessor.processing_queue`
(`PROCESSING_QUEUE_SIZE = 100` in `model_server.py`). -/
def PROCESSING_QUEUE_SIZE : Nat := 100

/-- State of `model_server.RealTimeProcessor` relevant to buffering: the
`frame_buffer` (`deque(maxlen=30)`) and the bounded `processing_queue` of
30-frame batches. -/
structure RTState (F : Type) where
  frameBuffer : List F
  processingQueue : List (List F)
deriving DecidableEq

/-- Embedding of `RealTimeProcessor.add_frame` (model_server.py lines
308-322): append to the deque; when it reaches `FRAME_BUFFER_SIZE` the
contents are submitted to the processing queue and the buffer cleared,
unless the queue is full (`queue.Full` is raised by the non-blocking `put`
before `clear` runs, so the buffer is left as is and the batch dropped). -/
def addFrame (st : RTState F) (frame : F) : RTState F :=
  let buf := dequePush 30 st.frameBuffer frame
  if buf.length = FRAME_BUFFER_SIZE then
    if st.processingQueue.length < PROCESSING_QUEUE_SIZE then
      ⟨[], st.processingQueue ++ [buf]⟩
    else ⟨buf, st.processingQueue⟩
  else ⟨buf, st.processingQueue⟩

/-- Maximum accepted frame payload, `self.max_frame_size = 1024 * 1024`
(`WebSocketServer.__init__`). -/
def maxFrameSize : Nat := 1024 * 1024

/-- Server-to-client messages produced while handling one inbound message,
tagged as in the JSON `type` field. -/
inductive SResponse (L P : Type) where
  | pong
  | handshakeAck
  | statusMsg
  | errorMsg (msg : String)
  | detectionMsg (det : Detection L)
  | translation (pred : PredSource × P)
  | stats (det : Detection L)
  | modeChanged (mode : Mode)
  | controlResponse (status : String)
deriving DecidableEq

/-- Mode validation in `process_frame` / `change_mode`: `data.get('mode',
'both')` followed by falling back to `'both'` for anything outside
`['sign', 'lip', 'both']`. -/
def parseMode : Option String → Mode
  | some "sign" => Mode.sign
  | some "lip" => Mode.lip
  | _ => Mode.both

/-- Decoding of the frame payload in `process_frame` (lines 664-682): a
`data:image` data-URL prefix is stripped by `split(',')[1]` (an out-of-range
index raises, caught by the surrounding `except`), then base64 decoding and
`cv2.imdecode` run; both are opaque and modelled by the `decodeFrame`
parameter, with `None` covering every failure path. -/
def decodeFramePayload (decodeFrame : String → Option F) (s : String) : Option F :=
  (if s.startsWith "data:image" then (s.splitOn ",").get? 1 else some s).bind decodeFrame

/-- Embedding of `WebSocketServer.process_frame` (lines 644-748): missing or
empty payload, oversized payload, and undecodable payload each produce a
single `error` response and leave the processor state untouched; otherwise
the frame runs through `process_frame_and_predict` and the server emits the
`detection` response, a `translation` response when a prediction was made,
and the `stats` response. -/
def processFrameMsg (decodeFrame : String → Option F) (detect : F → Mode → Detection L)
    (predictSign : List F → P) (predictLip : List L → P)
    (st : DetState F L) (frameData : Option String) (modeStr : Option String)
    (t : ℚ) : DetState F L × List (SResponse L P) :=
  match frameData with
  | none => (st, [SResponse.errorMsg "No frame data provided"])
  | some s =>
    if s.length = 0 then (st, [SResponse.errorMsg "No frame data provided"])
    else if maxFrameSize < s.length then
      (st, [SResponse.errorMsg "Frame too large"])
    else
      match decodeFramePayload decodeFrame s with
      | none => (st, [SResponse.errorMsg "Frame decoding failed"])
      | some frame =>
        let mode := parseMode modeStr
        let det := detect frame mode
        let r := processFrameAndPredict predictSign predictLip mode st frame det t
        (r.1, [SResponse.detectionMsg det] ++
          (match r.2 with
           | some p => [SResponse.translation p]
           | none => []) ++ [SResponse.stats det])

/-- Embedding of `WebSocketServer.handle_control` (lines 792-836): a
`control_response` (or `error` for an unknown command) is sent, and no
session or detection state is touched.  The source lower-cases the command
first (`data.get('command', '').lower()`, line 794); `cmd` here is that
already lower-cased string. -/
def handleControl (st : DetState F L) (cmd : String) :
    DetState F L × SResponse L P :=
  if cmd = "start" then (st, SResponse.controlResponse "started")
  else if cmd = "stop" then (st, SResponse.controlResponse "stopped")
  else if cmd = "pause" then (st, SResponse.controlResponse "paused")
  else if cmd = "resume" then (st, SResponse.controlResponse "resumed")
  else (st, SResponse.errorMsg ("Unknown command: " ++ cmd))

/-- One inbound websocket message, after the `json.loads` / `type` dispatch
of `handle_connection` and `process_client_message`.  `invalidJson` stands
for any text that fails `json.loads`; `other` for an unknown `type`. -/
inductive ClientMsg where
  | invalidJson
  | ping
  | handshake
  | handshakeAck
  | frameMsg (frameData : Option String) (modeStr : Option String)
  | modeMsg (modeStr : Option String)
  | control (command : String)
  | other (mtype : String)
deriving DecidableEq

/-- Embedding of one iteration of the `async for message in websocket` loop
in `handle_connection` (lines 564-596) together with
`process_client_message`.  Every failure is caught by the per-message
`except` handlers and turned into an `error` response; the returned `Bool`
is `true` when the loop continues with the connection open, which is every
case here (only a client disconnect, not modelled, leaves the loop). -/
def handleMessage (decodeFrame : String → Option F) (detect : F → Mode → Detection L)
    (predictSign : List F → P) (predictLip : List L → P)
    (st : DetState F L) (msg : ClientMsg) (t : ℚ) :
    DetState F L × List (SResponse L P) × Bool :=
  match msg with
  | ClientMsg.invalidJson => (st, [SResponse.errorMsg "Invalid JSON"], true)
  | ClientMsg.ping => (st, [SResponse.pong], true)
  | ClientMsg.handshake => (st, [SResponse.handshakeAck], true)
  | ClientMsg.handshakeAck => (st, [SResponse.statusMsg], true)
  | ClientMsg.frameMsg fd m =>
      let r := processFrameMsg decodeFrame detect predictSign predictLip st fd m t
      (r.1, r.2, true)
  | ClientMsg.modeMsg m => (st, [SResponse.modeChanged (parseMode m)], true)
  | ClientMsg.control c =>
      let r := handleControl (P := P) st c
      (r.1, [r.2], true)
  | ClientMsg.other mtype =>
      (st, [SResponse.errorMsg ("Unknown message type: " ++ mtype)], true)

/-- Modelled from the spec: state of the Debounce/Vote Engine and word
accumulator of spec sections 3 and 4.2 (`voteHistory`, `lastLabel`,
`cooldownCounter`, `detectedWords`).  This component is not present in the
backend sources under src/; only its collaborators (the classifiers and the
websocket pipeline) are. -/
structure VoteState where
  voteHistory : List String
  lastLabel : Option String
  cooldownCounter : Nat
  detectedWords : List String
deriving DecidableEq

/-- Number of occurrences of a label in the vote history. -/
def countLabel (h : List String) (l : String) : Nat :=
  (h.filter (fun x => x = l)).length

/-- Modelled from the spec: the most frequent label of the vote history,
with ties resolved to the label reaching the maximal count first in scan
order (spec 4.2 allows any deterministic tie-break). -/
def majorityLabel (h : List String) : Option String :=
  h.foldl (fun best l =>
    match best with
    | none => some l
    | some b => if countLabel h b < countLabel h l then some l else some b) none

/-- Modelled from the spec: mode-dependent confidence threshold of the
Debounce/Vote Engine, 0.85 for sign and 0.7 for lip (spec 4.2 step 3). -/
def confidenceThreshold : PredSource → ℚ
  | PredSource.sign => 85 / 100
  | PredSource.lip => 7 / 10

/-- Debounced prediction event (spec section 3). -/
structure PredictionEvent where
  label : String
  confidence : ℚ
deriving DecidableEq

/-- Modelled from the spec: `observe(rawLabel, rawConfidence)` of the
Debounce/Vote Engine (spec 4.2), absent from src/.  The raw label is pushed
onto the vote history (cap K = 10, FIFO); an event fires iff the majority
count is at least 5, the raw confidence exceeds the mode-dependent
threshold, and the majority label differs from `lastLabel` or the cooldown
counter is 0.  On firing, `lastLabel` becomes the majority label, the
cooldown counter is reset to 20 and the label is appended to
`detectedWords`; on every other processed frame the cooldown counter
decrements with floor 0 (spec 4.2 steps 4-5 read together with testable
property 3, `once set to 20 on a fire`). -/
def observe (kind : PredSource) (rawLabel : String) (rawConfidence : ℚ)
    (st : VoteState) : VoteState × Option PredictionEvent :=
  let h := dequePush 10 st.voteHistory rawLabel
  match majorityLabel h with
  | some m =>
    if 5 ≤ countLabel h m ∧ confidenceThreshold kind < rawConfidence ∧
        (st.lastLabel ≠ some m ∨ st.cooldownCounter = 0) then
      (⟨h, some m, 20, st.detectedWords ++ [m]⟩, some ⟨m, rawConfidence⟩)
    else
      (⟨h, st.lastLabel, st.cooldownCounter - 1, st.detectedWords⟩, none)
  | none =>
      (⟨h, st.lastLabel, st.cooldownCounter - 1, st.detectedWords⟩, none)

/-- Modelled from the spec: the part of SessionState driving the activity
timeout and flush logic of spec 4.3, absent from src/: the accumulated
`detectedWords` and the timestamp of the last observed hand/lip presence. -/
structure FlushState where
  detectedWords : List String
  lastActivityTimestamp : ℚ
deriving DecidableEq

/-- Modelled from the spec: idle threshold of the flush logic, 2.0 seconds
(spec 4.3). -/
def idleThreshold : ℚ := 2

/-- Modelled from the spec: `onFrameProcessed(handPresent, now)` of the
activity-timeout/flush logic (spec 4.3), absent from src/.  When presence
is seen the activity timestamp advances; when no presence has been seen for
at least the idle threshold and `detectedWords` is non-empty, the words are
joined by single spaces in insertion order into one flushed sentence and
`detectedWords` is cleared. -/
def onFrameProcessed (st : FlushState) (handPresent : Bool) (now : ℚ) :
    FlushState × Option String :=
  if handPresent then (⟨st.detectedWords, now⟩, none)
  else if idleThreshold ≤ now - st.lastActivityTimestamp ∧ st.detectedWords ≠ [] then
    (⟨[], st.lastActivityTimestamp⟩, some (String.intercalate " " st.detectedWords))
  else (st, none)

/-- C4 (counterexample): processing a frame in which neither a hand nor lips
were detected does not advance either sliding window — contrary to the
claim, under which the window of the empty initial state would become `[7]`
after this frame.  The state is returned entirely unchanged. -/
theorem no_detection_frame_not_pushed :
    (processFrameAndPredict (fun _ : List Nat => ()) (fun _ : List Unit => ())
        Mode.both (initialDetState : DetState Nat Unit) 7 ⟨0, false, ()⟩ 5).1 =
      initialDetState ∧
    (processFrameAndPredict (fun _ : List Nat => ()) (fun _ : List Unit => ())
        Mode.both (initialDetState : DetState Nat Unit) 7 ⟨0, false, ()⟩ 5).1.signBuffer ≠
      [7] := by
  constructor
  · simp [processFrameAndPredict, initialDetState]
  · simp [processFrameAndPredict, initialDetState]

/-- C4 (amended): `process_frame_and_predict` appends to the sign window
only for frames in which a hand was detected (`handCount > 0` and mode
`sign`/`both`), and to the lip window only for frames in which lips were
detected; a frame with no hand and no lip detection leaves the whole
processor state unchanged and yields no prediction. -/
theorem window_advances_only_on_detection
    (predictSign : List F → P) (predictLip : List L → P) (mode : Mode)
    (st : DetState F L) (frame : F) (det : Detection L) (t : ℚ) :
    (det.handCount = 0 → det.lipDetected = false →
      (processFrameAndPredict predictSign predictLip mode st frame det t).1 = st ∧
      (processFrameAndPredict predictSign predictLip mode st frame det t).2 = none) ∧
    ((mode = Mode.sign ∨ mode = Mode.both) → 0 < det.handCount →
      (processFrameAndPredict predictSign predictLip mode st frame det t).1.signBuffer =
        dequePush 30 st.signBuffer frame) ∧
    ((mode = Mode.lip ∨ mode = Mode.both) → det.lipDetected = true →
      (processFrameAndPredict predictSign predictLip mode st frame det t).1.lipBuffer =
        dequePush 30 st.lipBuffer det.lipLandmarks) := by
  refine ⟨fun h0 hl => ?_, fun hm hc => ?_, fun hm hl => ?_⟩
  · simp [processFrameAndPredict, h0, hl]
  · simp only [processFrameAndPredict, hm, true_and]
    split_ifs <;> simp_all
  · simp only [processFrameAndPredict]
    split_ifs <;> simp_all

/-- Witness for C4 at concrete inputs: a no-detection frame leaves the
state unchanged, and a hand frame in sign mode pushes onto the sign window. -/
theorem window_advances_only_on_detection_witness :
    (processFrameAndPredict (fun _ : List Nat => ()) (fun _ : List Unit => ())
        Mode.lip (⟨[1], [], 2⟩ : DetState Nat Unit) 7 ⟨0, false, ()⟩ 5).1 = ⟨[1], [], 2⟩ ∧
    (processFrameAndPredict (fun _ : List Nat => ()) (fun _ : List Unit => ())
        Mode.sign (⟨[1], [], 2⟩ : DetState Nat Unit) 7 ⟨3, false, ()⟩ 5).1.signBuffer =
      dequePush 30 [1] 7 :=
  ⟨((window_advances_only_on_detection _ _ Mode.lip ⟨[1], [], 2⟩ 7 ⟨0, false, ()⟩ 5).1
      rfl rfl).1,
    (window_advances_only_on_detection _ _ Mode.sign ⟨[1], [], 2⟩ 7 ⟨3, false, ()⟩ 5).2.1
      (Or.inl rfl) (by decide)⟩

/-- C10: sign and lip prediction share the single `last_prediction_time`,
so at most one prediction per `prediction_interval` (1.0 s) of processing
time: a frame processed less than 1.0 s after the previous prediction
produces no prediction of either kind and leaves `last_prediction_time`
unchanged, and in mode `both` a frame on which the sign branch fires
returns the sign prediction — the lip branch is suppressed because
`last_prediction_time` was just set to the current time. -/
theorem shared_prediction_interval
    (predictSign : List F → P) (predictLip : List L → P) (mode : Mode)
    (st : DetState F L) (frame : F) (det : Detection L) (t : ℚ) :
    (t - st.lastPredictionTime < predictionInterval →
      (processFrameAndPredict predictSign predictLip mode st frame det t).2 = none ∧
      (processFrameAndPredict predictSign predictLip mode st frame det t).1.lastPredictionTime
        = st.lastPredictionTime) ∧
    (0 < det.handCount → 10 ≤ (dequePush 30 st.signBuffer frame).length →
      predictionInterval ≤ t - st.lastPredictionTime →
      (processFrameAndPredict predictSign predictLip Mode.both st frame det t).2 =
        some (PredSource.sign, predictSign (dequePush 30 st.signBuffer frame))) := by
  constructor
  · intro hlt
    have hnot : ¬ predictionInterval ≤ t - st.lastPredictionTime := not_le.mpr hlt
    simp only [processFrameAndPredict]
    split_ifs <;> simp_all
  · intro hc hlen hge
    have hz : ¬ predictionInterval ≤ t - t := by
      rw [sub_self]
      simp [predictionInterval]
    simp only [processFrameAndPredict]
    split_ifs <;> simp_all
    linarith

/-- Witness for C10: within the 1-second interval nothing fires; with a
full enough buffer and an elapsed interval the sign prediction wins in
mode `both`. -/
theorem shared_prediction_interval_witness :
    ((processFrameAndPredict (fun _ : List Nat => ()) (fun _ : List Unit => ())
        Mode.both (⟨List.replicate 20 0, List.replicate 20 (), 5⟩ : DetState Nat Unit)
        9 ⟨1, true, ()⟩ 5).2 = none) ∧
    ((processFrameAndPredict (fun _ : List Nat => ()) (fun _ : List Unit => ())
        Mode.both (⟨List.replicate 9 0, List.replicate 9 (), 0⟩ : DetState Nat Unit)
        9 ⟨1, true, ()⟩ 5).2 =
      some (PredSource.sign, ())) :=
  ⟨((shared_prediction_interval (fun _ : List Nat => ()) (fun _ : List Unit => ())
      Mode.both ⟨List.replicate 20 0, List.replicate 20 (), 5⟩ 9 ⟨1, true, ()⟩ 5).1
      (by simp [predictionInterval])).1,
    (shared_prediction_interval (fun _ : List Nat => ()) (fun _ : List Unit => ())
      Mode.both ⟨List.replicate 9 0, List.replicate 9 (), 0⟩ 9 ⟨1, true, ()⟩ 5).2
      (by decide) (by decide) (by simp [predictionInterval])⟩

/-- C2 (counterexample): in `process_frame_and_predict` a prediction is
already attempted with a buffer of length 10, well below `W = 30`: pushing
a tenth hand frame with the prediction interval elapsed yields a
prediction, refuting the claim that no prediction is attempted while the
buffer length is below 30. -/
theorem prediction_attempted_below_full_window :
    (processFrameAndPredict (fun _ : List Nat => ()) (fun _ : List Unit => ())
        Mode.sign (⟨List.replicate 9 0, [], 0⟩ : DetState Nat Unit) 9
        ⟨1, false, ()⟩ 5).2 = some (PredSource.sign, ()) ∧
    (dequePush 30 (List.replicate 9 (0 : Nat)) 9).length < FRAME_BUFFER_SIZE := by
  constructor
  · simp [processFrameAndPredict, dequePush, predictionInterval]
  · decide

/-- C2 (amended): in `DetectionProcessor.process_frame_and_predict` (sign
mode, hand detected) a prediction is attempted exactly when the buffer
after the push holds at least 10 frames and at least `prediction_interval`
(1.0 s) has elapsed since the last prediction; in
`RealTimeProcessor.add_frame` (queue not full) the buffer contents are
submitted for processing exactly when the buffer reaches length 30. -/
theorem prediction_trigger_thresholds
    (predictSign : List F → P) (predictLip : List L → P)
    (st : DetState F L) (frame : F) (det : Detection L) (t : ℚ)
    (rst : RTState F) (g : F) :
    (0 < det.handCount →
      ((processFrameAndPredict predictSign predictLip Mode.sign st frame det t).2.isSome ↔
        (10 ≤ (dequePush 30 st.signBuffer frame).length ∧
          predictionInterval ≤ t - st.lastPredictionTime))) ∧
    (rst.processingQueue.length < PROCESSING_QUEUE_SIZE →
      ((addFrame rst g).processingQueue.length = rst.processingQueue.length + 1 ↔
        (dequePush 30 rst.frameBuffer g).length = FRAME_BUFFER_SIZE)) := by
  constructor
  · intro hc
    simp only [processFrameAndPredict]
    split_ifs <;> simp_all
  · intro hq
    simp only [addFrame]
    split_ifs <;> simp_all

/-- Witness for C2's amended statement at concrete inputs: the tenth hand
frame triggers a prediction attempt, and the thirtieth buffered frame is
enqueued for processing. -/
theorem prediction_trigger_thresholds_witness :
    ((processFrameAndPredict (fun _ : List Nat => ()) (fun _ : List Unit => ())
        Mode.sign (⟨List.replicate 9 0, [], 0⟩ : DetState Nat Unit) 9
        ⟨1, false, ()⟩ 5).2.isSome ↔
      (10 ≤ (dequePush 30 (List.replicate 9 (0 : Nat)) 9).length ∧
        predictionInterval ≤ (5 : ℚ) - 0)) ∧
    ((addFrame (⟨List.replicate 29 0, []⟩ : RTState Nat) 7).processingQueue.length =
        ([] : List (List Nat)).length + 1 ↔
      (dequePush 30 (List.replicate 29 (0 : Nat)) 7).length = FRAME_BUFFER_SIZE) :=
  ⟨(prediction_trigger_thresholds (fun _ : List Nat => ()) (fun _ : List Unit => ())
      ⟨List.replicate 9 0, [], 0⟩ 9 ⟨1, false, ()⟩ 5 ⟨List.replicate 29 0, []⟩ 7).1
      (by decide),
    (prediction_trigger_thresholds (fun _ : List Nat => ()) (fun _ : List Unit => ())
      ⟨List.replicate 9 0, [], 0⟩ 9 ⟨1, false, ()⟩ 5 ⟨List.replicate 29 0, []⟩ 7).2
      (by decide)⟩

/-- C6 (counterexample): handling the "start" control command does not
return the session to its construction-time values: on a state whose sign
window holds one frame and whose last prediction time is 3, the state after
`handle_control('start')` still holds that frame and is not the initial
state (empty windows, `last_prediction_time = 0`). -/
theorem control_start_not_reset :
    (handleControl (P := Unit) (⟨[5], [], 3⟩ : DetState Nat Unit) "start").1 ≠
      (initialDetState : DetState Nat Unit) ∧
    (handleControl (P := Unit) (⟨[5], [], 3⟩ : DetState Nat Unit) "start").1.signBuffer =
      [5] := by
  constructor
  · simp [handleControl, initialDetState]
  · rfl

/-- C6 (amended): `handle_control` only sends a response — a
`control_response` with status `started` for the "start" command — and
never mutates any session or detection state; no reinitialization happens. -/
theorem control_start_leaves_state_unchanged (st : DetState F L) (cmd : String) :
    (handleControl (P := P) st cmd).1 = st ∧
    (handleControl (P := P) st "start").2 = SResponse.controlResponse "started" := by
  constructor
  · simp only [handleControl]
    split_ifs <;> rfl
  · rfl

/-- Concrete decoder for witness states: every payload decodes to frame 0. -/
def constDecode : String → Option Nat := fun _ => some 0

/-- Concrete decoder for witness states: decoding always fails. -/
def noDecode : String → Option Nat := fun _ => none

/-- Concrete detector for witness states: always one hand, no lips. -/
def constDetect : Nat → Mode → Detection Unit := fun _ _ => ⟨1, false, ()⟩

/-- Concrete sign classifier for witness states. -/
def unitPredictSign : List Nat → Unit := fun _ => ()

/-- Concrete lip classifier for witness states. -/
def unitPredictLip : List Unit → Unit := fun _ => ()

/-- Payload one byte over the 1 MiB limit. -/
def bigPayload : String := String.mk (List.replicate (maxFrameSize + 1) 'a')

/-- C7: a frame message whose payload exceeds the 1 MiB limit is answered
with a single `error` response; the detection state is not touched and the
connection loop continues, since `process_frame` returns right after
sending the error, before any decoding or buffering. -/
theorem oversized_frame_rejected
    (decodeFrame : String → Option F) (detect : F → Mode → Detection L)
    (predictSign : List F → P) (predictLip : List L → P)
    (st : DetState F L) (s : String) (modeStr : Option String) (t : ℚ)
    (hs : maxFrameSize < s.length) :
    handleMessage decodeFrame detect predictSign predictLip st
        (ClientMsg.frameMsg (some s) modeStr) t =
      (st, [SResponse.errorMsg "Frame too large"], true) := by
  have h0 : ¬ s.length = 0 := by
    have h := hs
    simp only [maxFrameSize] at h
    omega
  simp [handleMessage, processFrameMsg, h0, hs]

/-- Witness for C7: a concrete payload of 1048577 characters is rejected
with an error and the initial state is unchanged. -/
theorem oversized_frame_rejected_witness :
    maxFrameSize < bigPayload.length ∧
    handleMessage constDecode constDetect unitPredictSign unitPredictLip
        (initialDetState : DetState Nat Unit)
        (ClientMsg.frameMsg (some bigPayload) none) 5 =
      (initialDetState, [SResponse.errorMsg "Frame too large"], true) := by
  have hlen : bigPayload.length = maxFrameSize + 1 := by
    show (List.replicate (maxFrameSize + 1) 'a').length = maxFrameSize + 1
    exact List.length_replicate _ _
  have h : maxFrameSize < bigPayload.length := by omega
  exact ⟨h, oversized_frame_rejected constDecode constDetect unitPredictSign
    unitPredictLip initialDetState bigPayload none 5 h⟩

/-- C8: every failing inbound message — text that is not valid JSON, a
message of unknown type, or a frame whose payload cannot be decoded — is
answered with exactly one `error` response for that message, the processor
state is unchanged, and the connection loop continues: the per-message
`except` handlers of `handle_connection` and the early returns of
`process_frame` isolate each failure to its own message. -/
theorem per_message_failure_isolated
    (decodeFrame : String → Option F) (detect : F → Mode → Detection L)
    (predictSign : List F → P) (predictLip : List L → P)
    (st : DetState F L) (t : ℚ) (mtype : String) (s : String)
    (modeStr : Option String) :
    handleMessage decodeFrame detect predictSign predictLip st
        ClientMsg.invalidJson t =
      (st, [SResponse.errorMsg "Invalid JSON"], true) ∧
    handleMessage decodeFrame detect predictSign predictLip st
        (ClientMsg.other mtype) t =
      (st, [SResponse.errorMsg ("Unknown message type: " ++ mtype)], true) ∧
    (¬ s.length = 0 → ¬ maxFrameSize < s.length →
      decodeFramePayload decodeFrame s = none →
      handleMessage decodeFrame detect predictSign predictLip st
          (ClientMsg.frameMsg (some s) modeStr) t =
        (st, [SResponse.errorMsg "Frame decoding failed"], true)) := by
  refine ⟨rfl, rfl, fun h0 hs hd => ?_⟩
  simp [handleMessage, processFrameMsg, h0, hs, hd]

/-- Witness for C8 at concrete inputs, including a one-character frame
payload whose decoding fails. -/
theorem per_message_failure_isolated_witness :
    handleMessage noDecode constDetect unitPredictSign unitPredictLip
        (initialDetState : DetState Nat Unit) ClientMsg.invalidJson 5 =
      (initialDetState, [SResponse.errorMsg "Invalid JSON"], true) ∧
    handleMessage noDecode constDetect unitPredictSign unitPredictLip
        (initialDetState : DetState Nat Unit)
        (ClientMsg.frameMsg (some "x") none) 5 =
      (initialDetState, [SResponse.errorMsg "Frame decoding failed"], true) :=
  ⟨(per_message_failure_isolated noDecode constDetect unitPredictSign
      unitPredictLip initialDetState 5 "m" "x" none).1,
    (per_message_failure_isolated noDecode constDetect unitPredictSign
      unitPredictLip initialDetState 5 "m" "x" none).2.2
      (by decide) (by decide) (by decide)⟩

/-- Detection state of the single shared `DetectionProcessor` after one
connection has sent nine decodable hand frames (at time 0). -/
def afterNineHandFrames : DetState Nat Unit :=
  (List.replicate 9 "f").foldl
    (fun st s =>
      (processFrameMsg constDecode constDetect unitPredictSign unitPredictLip
        st (some s) none 0).1)
    initialDetState

/-- Evaluation of the shared state after the nine foreign hand frames. -/
theorem afterNineHandFrames_eq :
    afterNineHandFrames = ⟨List.replicate 9 0, [], 0⟩ := by decide

/-- C9 (counterexample): two-run noninterference fails on the code: the
same single frame message from one connection is answered differently
depending on whether another connection had already sent nine hand frames
into the shared `DetectionProcessor`, so a connection's responses do not
depend only on its own frames. -/
theorem noninterference_fails :
    (processFrameMsg constDecode constDetect unitPredictSign unitPredictLip
        afterNineHandFrames (some "f") none 5).2 ≠
      (processFrameMsg constDecode constDetect unitPredictSign unitPredictLip
        initialDetState (some "f") none 5).2 := by
  have hf1 : ("f" : String).length = 1 := by decide
  have hf2 : "f".startsWith "data:image" = false := by decide
  rw [afterNineHandFrames_eq]
  simp [processFrameMsg, processFrameAndPredict, constDecode, constDetect,
    unitPredictSign, unitPredictLip, decodeFramePayload, dequePush, parseMode,
    initialDetState, predictionInterval, maxFrameSize, hf1, hf2]

/-- C9 (amended): the `DetectionProcessor` created once in
`WebSocketServer.__init__` is shared by every connection, so a
connection's responses depend on the shared buffers filled by all
connections: after another connection contributed nine hand frames, this
connection's first frame already completes the 10-frame window and is
answered with a `translation`, which does not happen on a fresh server. -/
theorem shared_processor_cross_connection_dependence :
    (processFrameMsg constDecode constDetect unitPredictSign unitPredictLip
        afterNineHandFrames (some "f") none 5).2 =
      [SResponse.detectionMsg ⟨1, false, ()⟩,
        SResponse.translation (PredSource.sign, ()),
        SResponse.stats ⟨1, false, ()⟩] ∧
    (processFrameMsg constDecode constDetect unitPredictSign unitPredictLip
        initialDetState (some "f") none 5).2 =
      [SResponse.detectionMsg ⟨1, false, ()⟩, SResponse.stats ⟨1, false, ()⟩] := by
  have hf1 : ("f" : String).length = 1 := by decide
  have hf2 : "f".startsWith "data:image" = false := by decide
  rw [afterNineHandFrames_eq]
  constructor <;>
    simp [processFrameMsg, processFrameAndPredict, constDecode, constDetect,
      unitPredictSign, unitPredictLip, decodeFramePayload, dequePush, parseMode,
      initialDetState, predictionInterval, maxFrameSize, hf1, hf2]

/-- C3: the spec-modelled Debounce/Vote Engine fires a prediction event on
`observe` iff the most frequent label of the last 10 raw labels has count at
least 5, the raw confidence exceeds the mode-dependent threshold (0.85 for
sign, 0.7 for lip) and the majority label differs from `lastLabel` or the
cooldown counter is 0; on firing, `lastLabel` becomes the majority label,
the cooldown counter is reset to 20, and the majority label is appended to
`detectedWords`. -/
theorem observe_fire_iff (kind : PredSource) (l : String) (conf : ℚ)
    (st : VoteState) (m : String)
    (hm : majorityLabel (dequePush 10 st.voteHistory l) = some m) :
    ((observe kind l conf st).2.isSome ↔
      (5 ≤ countLabel (dequePush 10 st.voteHistory l) m ∧
        confidenceThreshold kind < conf ∧
        (st.lastLabel ≠ some m ∨ st.cooldownCounter = 0))) ∧
    ((observe kind l conf st).2.isSome →
      (observe kind l conf st).1.lastLabel = some m ∧
      (observe kind l conf st).1.cooldownCounter = 20 ∧
      (observe kind l conf st).1.detectedWords = st.detectedWords ++ [m]) := by
  simp only [observe, hm]
  split_ifs with h <;> simp [h]

/-- Witness for C3: with four previous "A" votes on record, a fifth "A"
with confidence above the sign threshold fires and appends "A" to the
detected words. -/
theorem observe_fire_iff_witness :
    (observe PredSource.sign "A" (confidenceThreshold PredSource.sign + 1)
        ⟨["A", "A", "A", "A", "B", "B"], none, 0, []⟩).2.isSome ∧
    (observe PredSource.sign "A" (confidenceThreshold PredSource.sign + 1)
        ⟨["A", "A", "A", "A", "B", "B"], none, 0, []⟩).1.detectedWords =
      [] ++ ["A"] := by
  have h := observe_fire_iff PredSource.sign "A"
    (confidenceThreshold PredSource.sign + 1)
    ⟨["A", "A", "A", "A", "B", "B"], none, 0, []⟩ "A" (by decide)
  have hfire := h.1.mpr ⟨by decide, lt_add_one _, Or.inr rfl⟩
  exact ⟨hfire, (h.2 hfire).2.2⟩

/-- C5: the spec-modelled flush logic: on a frame with no hand/lip presence
processed at least the 2.0-second idle threshold after the last observed
presence, with `detectedWords` non-empty, exactly one flushed sentence is
produced — the accumulated words joined by single spaces in insertion
order — `detectedWords` is empty immediately afterwards, and a further
presence-free frame flushes nothing. -/
theorem idle_flush_once (st : FlushState) (now now' : ℚ)
    (hidle : idleThreshold ≤ now - st.lastActivityTimestamp)
    (hne : st.detectedWords ≠ []) :
    (onFrameProcessed st false now).2 =
      some (String.intercalate " " st.detectedWords) ∧
    (onFrameProcessed st false now).1.detectedWords = [] ∧
    (onFrameProcessed (onFrameProcessed st false now).1 false now').2 = none := by
  have hc : idleThreshold ≤ now - st.lastActivityTimestamp ∧
      st.detectedWords ≠ [] := ⟨hidle, hne⟩
  simp [onFrameProcessed, hc]

/-- Witness for C5: two accumulated words are flushed as one sentence
after two idle seconds and the accumulator is left empty. -/
theorem idle_flush_once_witness :
    (onFrameProcessed ⟨["hello", "world"], 0⟩ false 2).2 =
      some (String.intercalate " " ["hello", "world"]) ∧
    (onFrameProcessed ⟨["hello", "world"], 0⟩ false 2).1.detectedWords = [] ∧
    (onFrameProcessed (onFrameProcessed ⟨["hello", "world"], 0⟩ false 2).1
      false 4).2 = none :=
  idle_flush_once ⟨["hello", "world"], 0⟩ 2 4 (by simp [idleThreshold])
    (by decide)

end Swaram
